import Mathlib

/-!
Verification of the MCP listing client (src/go-client.go).

The program is a single `main` function: it parses a `--url` flag, logs a
startup message via the default logger (which writes to the standard error
stream), creates an SSE transport, creates an MCP client, defers
`mcpClient.Close()`, calls `ListTools`, and prints one line per returned tool
to standard output through a dedicated `log.New(os.Stdout, "", 0)` logger
(empty message prolog, flags 0, hence no timestamp).

We embed the run as a pure function from an oracle `World` (the outcomes of
the three external calls and of each stdout write) to a `RunResult` trace
recording the lines delivered to standard output, the lines written to the
error stream, the process exit code, the number of times `Close` was invoked
on the client, and the number of times `ListTools` was invoked.

Two points of Go semantics are embedded faithfully, because the claims turn
on them:

* `log.Fatalf` is `Printf` followed by `os.Exit(1)`, and `os.Exit`
  terminates the process immediately WITHOUT running deferred function calls
  (Go language specification and the `os` package documentation). Hence on
  the branch where `ListTools` returns an error, the deferred
  `mcpClient.Close()` is never executed.

* `log.Logger.Printf` discards the error returned by the underlying
  `io.Writer`; a failed write to standard output does not abort the process,
  the loop simply continues with the next descriptor.
-/

/-- A tool descriptor as returned by `ListTools`: the two fields the program
reads (`tool.Name`, `tool.Description`). -/
structure ToolDescriptor where
  name : String
  description : String
deriving Repr, DecidableEq

/-- The oracle for one process run: the outcomes of the external calls made
by `main`. `transportErr`/`clientErr` are `some e` when
`transport.NewSSEClientTransport` / `client.NewClient` return a non-nil
error `e`. `listToolsResult` is the outcome of `mcpClient.ListTools`.
`writeFails i` tells whether the i-th write to standard output fails at the
stream level. -/
structure World where
  transportErr : Option String
  clientErr : Option String
  listToolsResult : Except String (List ToolDescriptor)
  writeFails : Nat → Bool

/-- The observable trace of one process run: lines delivered to standard
output, lines written to the error stream, the exit code, how many times
`Close` was called on the MCP client, and how many times `ListTools` was
invoked. -/
structure RunResult where
  stdout : List String
  stderr : List String
  exitCode : Nat
  closeCalls : Nat
  listToolsCalls : Nat
deriving Repr, DecidableEq

/-- The default value of the `--url` flag (go-client.go line 16). -/
def defaultURL : String := "https://mcp-td1.swormlab.com/sse"

/-- The startup line `log.Printf("Connecting to MCP server: %s", mcpURL)`
(go-client.go line 20); the default logger writes it to the error stream. -/
def startupMessage (url : String) : String :=
  "Connecting to MCP server: " ++ url

/-- One output line of the print loop,
`logger.Printf("Name: %s Description: %s\n", tool.Name, tool.Description)`
(go-client.go line 45). The logger has empty message prolog and flags 0, so
the line is exactly this text. -/
def formatTool (t : ToolDescriptor) : String :=
  "Name: " ++ t.name ++ " Description: " ++ t.description

/-- The print loop over `tools.Tools` (go-client.go lines 44-46). `i` is the
index of the next stdout write; a write whose `writeFails` bit is set
delivers nothing, and since `log.Logger.Printf` discards the write error the
loop continues regardless. Returns the lines delivered to standard
output, in loop order. -/
def printTools (wf : Nat → Bool) : Nat → List ToolDescriptor → List String
  | _, [] => []
  | i, t :: ts =>
    if wf i then printTools wf (i + 1) ts
    else formatTool t :: printTools wf (i + 1) ts

/-- The whole of `main` (go-client.go lines 13-47) as a function of the flag
value and the oracle. Each `log.Fatalf` branch writes its message to the
error stream and exits with code 1 via `os.Exit(1)`, which does not run
deferred calls; in particular on the `ListTools` error branch the deferred
`mcpClient.Close()` is skipped, so `closeCalls = 0` there. On the success
path `main` returns normally and the deferred `Close` runs once. -/
def runMain (url : String) (w : World) : RunResult :=
  let stderr0 := [startupMessage url]
  match w.transportErr with
  | some e =>
    { stdout := [], stderr := stderr0 ++ ["Failed to create transport client: " ++ e],
      exitCode := 1, closeCalls := 0, listToolsCalls := 0 }
  | none =>
    match w.clientErr with
    | some e =>
      { stdout := [], stderr := stderr0 ++ ["Failed to create MCP client: " ++ e],
        exitCode := 1, closeCalls := 0, listToolsCalls := 0 }
    | none =>
      match w.listToolsResult with
      | .error e =>
        { stdout := [], stderr := stderr0 ++ ["Failed to list tools: " ++ e],
          exitCode := 1, closeCalls := 0, listToolsCalls := 1 }
      | .ok tools =>
        { stdout := printTools w.writeFails 0 tools, stderr := stderr0,
          exitCode := 0, closeCalls := 1, listToolsCalls := 1 }

/-- When no stdout write fails, the print loop delivers exactly the image of
the descriptor list under `formatTool`, in order. -/
theorem printTools_of_no_fail (wf : Nat → Bool) (h : ∀ i, wf i = false) :
    ∀ (n : Nat) (ts : List ToolDescriptor), printTools wf n ts = ts.map formatTool := by
  intro n ts
  induction ts generalizing n with
  | nil => rfl
  | cons t ts ih =>
    simp [printTools, h, ih]

/-- Every line delivered by the print loop is the formatting of some
descriptor in the list. -/
theorem mem_printTools (wf : Nat → Bool) :
    ∀ (n : Nat) (ts : List ToolDescriptor) (s : String),
      s ∈ printTools wf n ts → ∃ t ∈ ts, s = formatTool t := by
  intro n ts
  induction ts generalizing n with
  | nil => intro s hs; simp [printTools] at hs
  | cons t ts ih =>
    intro s hs
    by_cases hw : wf n
    · simp [printTools, hw] at hs
      obtain ⟨u, hu, hsu⟩ := ih (n + 1) s hs
      exact ⟨u, List.mem_cons_of_mem _ hu, hsu⟩
    · simp [printTools, hw] at hs
      rcases hs with hs | hs
      · exact ⟨t, List.mem_cons_self _ _, hs⟩
      · obtain ⟨u, hu, hsu⟩ := ih (n + 1) s hs
        exact ⟨u, List.mem_cons_of_mem _ hu, hsu⟩

/-- Claim C1 (the code at the failing input): on a run where the transport
and the client are created successfully but `ListTools` returns an error,
`log.Fatalf` exits the process via `os.Exit(1)`, which skips deferred calls,
so the deferred `mcpClient.Close()` never runs: `closeCalls = 0`, not the
exactly-once release the claim states. -/
theorem C1_close_skipped_on_listTools_failure :
    (runMain defaultURL ⟨none, none, .error "connection reset", fun _ => false⟩).closeCalls = 0 ∧
    (runMain defaultURL ⟨none, none, .error "connection reset", fun _ => false⟩).exitCode = 1 ∧
    (runMain defaultURL ⟨none, none, .error "connection reset", fun _ => false⟩).listToolsCalls = 1 :=
  ⟨rfl, rfl, rfl⟩

/-- Claim C2: on the input descriptor sequence
`[{name:"A",description:"d1"}, {name:"B",description:"d2"}]` (with the
external calls succeeding and the output stream healthy), standard output is
exactly the two lines `Name: A Description: d1` and `Name: B Description: d2`,
with no timestamp or severity marker and nothing after the description. -/
theorem C2_formatting_two_lines :
    (runMain defaultURL ⟨none, none, .ok [⟨"A", "d1"⟩, ⟨"B", "d2"⟩], fun _ => false⟩).stdout =
      ["Name: A Description: d1", "Name: B Description: d2"] := rfl

/-- Claim C3: the exit code is 0 exactly when transport creation, client
creation and `ListTools` all succeed; any failure among them yields a
non-zero exit code together with a second line on the error stream (the
error message, after the startup line). -/
theorem C3_exit_code_policy (url : String) (w : World) :
    ((w.transportErr = none ∧ w.clientErr = none ∧ ∃ ts, w.listToolsResult = .ok ts) →
      (runMain url w).exitCode = 0) ∧
    (((∃ e, w.transportErr = some e) ∨ (∃ e, w.clientErr = some e) ∨
        (∃ e, w.listToolsResult = .error e)) →
      (runMain url w).exitCode ≠ 0 ∧ (runMain url w).stderr.length = 2) := by
  obtain ⟨te, ce, lt, wf⟩ := w
  constructor
  · rintro ⟨h1, h2, ts, h3⟩
    simp only at h1 h2 h3
    subst h1; subst h2; subst h3
    simp [runMain]
  · intro h
    rcases te with _ | e1
    · rcases ce with _ | e2
      · rcases lt with e3 | ts
        · simp [runMain]
        · rcases h with ⟨e, he⟩ | ⟨e, he⟩ | ⟨e, he⟩ <;> simp_all
      · simp [runMain]
    · simp [runMain]

/-- Witness for C3 at concrete worlds: a fully successful run exits 0, and a
run whose transport creation fails exits non-zero with an error line. -/
theorem C3_exit_code_policy_witness :
    (runMain defaultURL ⟨none, none, .ok [], fun _ => false⟩).exitCode = 0 ∧
    ((runMain defaultURL ⟨some "dial error", none, .ok [], fun _ => false⟩).exitCode ≠ 0 ∧
      (runMain defaultURL ⟨some "dial error", none, .ok [], fun _ => false⟩).stderr.length = 2) :=
  ⟨(C3_exit_code_policy defaultURL _).1 ⟨rfl, rfl, ⟨[], rfl⟩⟩,
   (C3_exit_code_policy defaultURL _).2 (Or.inl ⟨"dial error", rfl⟩)⟩

/-- Claim C4: when creating the transport or creating the client fails,
`ListTools` is never invoked: the `log.Fatalf` on the failed creation exits
the process before the listing call is reached. -/
theorem C4_no_listTools_after_connect_failure (url : String) (w : World)
    (h : w.transportErr ≠ none ∨ w.clientErr ≠ none) :
    (runMain url w).listToolsCalls = 0 := by
  obtain ⟨te, ce, lt, wf⟩ := w
  rcases te with _ | e1
  · rcases ce with _ | e2
    · simp at h
    · simp [runMain]
  · simp [runMain]

/-- Witness for C4: a run whose transport creation fails never calls
`ListTools`. -/
theorem C4_no_listTools_after_connect_failure_witness :
    (runMain defaultURL ⟨some "bad url", none, .ok [], fun _ => false⟩).listToolsCalls = 0 :=
  C4_no_listTools_after_connect_failure defaultURL _ (Or.inl (by simp))

/-- Counterexample to claim C5 as stated: a run in which the only stdout
write fails (one descriptor, nothing delivered to standard output) is not
fatal — the process runs to completion, closes the client and exits with
code 0, because `log.Logger.Printf` discards the write error. -/
theorem C5_counterexample :
    (runMain defaultURL ⟨none, none, .ok [⟨"A", "d1"⟩], fun _ => true⟩).exitCode = 0 ∧
    (runMain defaultURL ⟨none, none, .ok [⟨"A", "d1"⟩], fun _ => true⟩).stdout = [] ∧
    (runMain defaultURL ⟨none, none, .ok [⟨"A", "d1"⟩], fun _ => true⟩).closeCalls = 1 :=
  ⟨rfl, rfl, rfl⟩

/-- Claim C5 as amended: the output formatter has no failure modes of its
own, and output-stream write errors during printing are ignored rather than
fatal — on every run where the listing succeeds, whatever writes fail, the
process completes normally with exit code 0 and the client closed once. -/
theorem C5_write_errors_not_fatal (url : String) (w : World) (ts : List ToolDescriptor)
    (h1 : w.transportErr = none) (h2 : w.clientErr = none)
    (h3 : w.listToolsResult = .ok ts) :
    (runMain url w).exitCode = 0 ∧ (runMain url w).closeCalls = 1 := by
  simp [runMain, h1, h2, h3]

/-- Witness for the amended C5: with every write failing, the run still
exits 0 and closes once. -/
theorem C5_write_errors_not_fatal_witness :
    (runMain defaultURL ⟨none, none, .ok [⟨"B", "d2"⟩], fun _ => true⟩).exitCode = 0 ∧
    (runMain defaultURL ⟨none, none, .ok [⟨"B", "d2"⟩], fun _ => true⟩).closeCalls = 1 :=
  C5_write_errors_not_fatal defaultURL _ [⟨"B", "d2"⟩] rfl rfl rfl

/-- Claim C6: on a successful run with a healthy output stream, standard
output is exactly one formatted line per descriptor returned by `ListTools`,
in response order — none skipped, duplicated or reordered. -/
theorem C6_one_line_per_descriptor_in_order (url : String) (w : World)
    (ts : List ToolDescriptor) (h1 : w.transportErr = none) (h2 : w.clientErr = none)
    (h3 : w.listToolsResult = .ok ts) (h4 : ∀ i, w.writeFails i = false) :
    (runMain url w).stdout = ts.map formatTool := by
  simp [runMain, h1, h2, h3, printTools_of_no_fail w.writeFails h4]

/-- Witness for C6 on a concrete three-descriptor response. -/
theorem C6_one_line_per_descriptor_witness :
    (runMain defaultURL
        ⟨none, none, .ok [⟨"A", "d1"⟩, ⟨"B", "d2"⟩, ⟨"C", "d3"⟩], fun _ => false⟩).stdout =
      ([⟨"A", "d1"⟩, ⟨"B", "d2"⟩, ⟨"C", "d3"⟩] : List ToolDescriptor).map formatTool :=
  C6_one_line_per_descriptor_in_order defaultURL _ _ rfl rfl rfl (fun _ => rfl)

/-- Claim C7: `ListTools` is invoked at most once per run, and exactly once
on every run that gets past client creation — one listing request, no retry,
no cached reuse. -/
theorem C7_at_most_one_listTools (url : String) (w : World) :
    (runMain url w).listToolsCalls ≤ 1 ∧
    ((w.transportErr = none ∧ w.clientErr = none) → (runMain url w).listToolsCalls = 1) := by
  obtain ⟨te, ce, lt, wf⟩ := w
  rcases te with _ | e1
  · rcases ce with _ | e2
    · rcases lt with e3 | ts <;> simp [runMain]
    · simp [runMain]
  · simp [runMain]

/-- Witness for C7: a run past client creation calls `ListTools` exactly
once. -/
theorem C7_at_most_one_listTools_witness :
    (runMain defaultURL ⟨none, none, .error "timeout", fun _ => false⟩).listToolsCalls ≤ 1 ∧
    (runMain defaultURL ⟨none, none, .error "timeout", fun _ => false⟩).listToolsCalls = 1 :=
  ⟨(C7_at_most_one_listTools defaultURL _).1,
   (C7_at_most_one_listTools defaultURL _).2 ⟨rfl, rfl⟩⟩

/-- Claim C8: on a successful run the error stream carries exactly the
startup line naming the target URL, and every line on standard output is the
formatting of one of the returned descriptors — no startup or error text
ever reaches standard output. -/
theorem C8_stream_separation (url : String) (w : World) (ts : List ToolDescriptor)
    (h1 : w.transportErr = none) (h2 : w.clientErr = none)
    (h3 : w.listToolsResult = .ok ts) :
    (runMain url w).stderr = [startupMessage url] ∧
    ∀ s ∈ (runMain url w).stdout, ∃ t ∈ ts, s = formatTool t := by
  constructor
  · simp [runMain, h1, h2, h3]
  · intro s hs
    simp only [runMain, h1, h2, h3] at hs
    exact mem_printTools w.writeFails 0 ts s hs

/-- Witness for C8 on a concrete successful run. -/
theorem C8_stream_separation_witness :
    (runMain defaultURL ⟨none, none, .ok [⟨"echo", "Echoes input"⟩], fun _ => false⟩).stderr =
      [startupMessage defaultURL] ∧
    ∀ s ∈ (runMain defaultURL ⟨none, none, .ok [⟨"echo", "Echoes input"⟩],
        fun _ => false⟩).stdout,
      ∃ t ∈ ([⟨"echo", "Echoes input"⟩] : List ToolDescriptor), s = formatTool t :=
  C8_stream_separation defaultURL _ _ rfl rfl rfl

/-- Claim C9: every failing run — transport creation, client creation or
`ListTools` returning an error — exits with code exactly 1, since every
failure path goes through `log.Fatalf`, which calls `os.Exit(1)`. -/
theorem C9_exit_code_is_one_on_failure (url : String) (w : World)
    (h : w.transportErr ≠ none ∨ w.clientErr ≠ none ∨
      ∃ e, w.listToolsResult = .error e) :
    (runMain url w).exitCode = 1 := by
  obtain ⟨te, ce, lt, wf⟩ := w
  rcases te with _ | e1
  · rcases ce with _ | e2
    · rcases lt with e3 | ts
      · simp [runMain]
      · simp at h
    · simp [runMain]
  · simp [runMain]

/-- Witness for C9: a run whose `ListTools` fails exits with code 1. -/
theorem C9_exit_code_is_one_on_failure_witness :
    (runMain defaultURL ⟨none, none, .error "protocol error", fun _ => false⟩).exitCode = 1 :=
  C9_exit_code_is_one_on_failure defaultURL _ (Or.inr (Or.inr ⟨"protocol error", rfl⟩))

/-- Claim C10: when `ListTools` succeeds with an empty descriptor sequence,
nothing is written to standard output and the process exits with code 0. -/
theorem C10_empty_list_silent_success (url : String) (w : World)
    (h1 : w.transportErr = none) (h2 : w.clientErr = none)
    (h3 : w.listToolsResult = .ok []) :
    (runMain url w).stdout = [] ∧ (runMain url w).exitCode = 0 := by
  simp [runMain, h1, h2, h3, printTools]

/-- Witness for C10 on a concrete empty response. -/
theorem C10_empty_list_silent_success_witness :
    (runMain defaultURL ⟨none, none, .ok [], fun _ => false⟩).stdout = [] ∧
    (runMain defaultURL ⟨none, none, .ok [], fun _ => false⟩).exitCode = 0 :=
  C10_empty_list_silent_success defaultURL _ rfl rfl rfl
